import Mathlib

/-!
Shallow embedding of `src/RdsIamAuth.js` (class `RdsIamAuthManager`):
a credential-rotating MySQL connection-pool manager using AWS RDS IAM
tokens.  JavaScript instance state becomes an explicit `ManagerState`
record threaded through each method; the external collaborators
(`signer.getAuthToken`, `mysql.createPool`, `pool.end`,
`pool.getConnection`, `pool.query`) are modelled by explicit outcome
parameters, since each may succeed or fail independently.  A thrown
JavaScript exception is an `Except.error` result; crucially, state
mutations performed before the throw persist, so every method returns
the (possibly mutated) state alongside the `Except` result.  Each
method also returns a list of observable events (network calls, pool
lifecycle operations, error logging) so that ordering claims can be
stated.
-/

set_option autoImplicit false

namespace RdsIamAuth

/-- JavaScript exceptions that the embedded methods can raise:
`notInitialized` for `Error('Connection pool not initialized...')`,
and opaque driver/signer failures carried by the outcome parameters. -/
inductive JsErr where
  | notInitialized
  | signerErr (msg : String)
  | poolCreateErr (msg : String)
  | poolEndErr (msg : String)
  | connErr (msg : String)
deriving DecidableEq, Repr

/-- Observable events emitted by the manager's methods, in program
order: `signCall` is a call to `signer.getAuthToken()` (a network
call), `refreshStart` marks entry into `refreshPool()`, `poolCreate`
/ `poolEnd` / `poolGetConn` / `poolQuery` are operations on the pool
primitive carrying the pool's generation id, `timerCancel` is
`clearInterval`, and `logError` is a `console.error` call. -/
inductive Ev where
  | signCall
  | refreshStart
  | poolCreate (id : Nat)
  | poolEnd (id : Nat)
  | poolGetConn (id : Nat)
  | poolQuery (id : Nat)
  | timerCancel
  | logError
deriving DecidableEq, Repr

/-- The pool primitive returned by `mysql.createPool(poolOptions)`,
abstracted to the option fields this manager sets: the `password`
option (the IAM token in token mode, `process.env.DB_PWD` otherwise)
and whether the `mysql_clear_password` auth plugin closure was
installed.  `id` is a ghost generation counter distinguishing pool
objects; `closed` records a successful `pool.end()`. -/
structure Pool where
  id : Nat
  password : Option String
  usedAuthPlugin : Bool
  closed : Bool
deriving DecidableEq, Repr

/-- The environment variables the manager reads on its control paths:
`USE_IAM_AUTH` (compared with the string `"true"`) and `DB_PWD`. -/
structure Env where
  useIamAuth : String
  dbPwd : Option String
deriving DecidableEq, Repr

/-- The mutable instance fields of `RdsIamAuthManager`: `this.pool`,
`this.tokenRefreshInterval` (modelled as the interval length in
milliseconds when the timer is armed), `this.currentToken`,
`this.tokenExpiryTime` (milliseconds since epoch).  `nextPoolId` is a
ghost counter supplying fresh pool generation ids. -/
structure ManagerState where
  pool : Option Pool
  tokenRefreshInterval : Option Nat
  currentToken : Option String
  tokenExpiryTime : Option Nat
  nextPoolId : Nat
deriving DecidableEq, Repr

/-- The constructor's field initialisation: all instance fields null. -/
def initState : ManagerState :=
  { pool := none, tokenRefreshInterval := none, currentToken := none,
    tokenExpiryTime := none, nextPoolId := 0 }

/-- Result triple of an embedded method: the JavaScript return value
or thrown exception, the instance state after the call (mutations
before a throw persist), and the emitted events in order. -/
abbrev MRes (α : Type) := Except JsErr α × ManagerState × List Ev

/-- Embeds `generateAuthToken()`: awaits `signer.getAuthToken()`
(outcome `sigR`); on success stores the token in `this.currentToken`
and sets `this.tokenExpiryTime = Date.now() + 14 * 60 * 1000`
(15 minutes minus a 1-minute safety margin); on failure the rejection
propagates with no field mutated. -/
def generateAuthToken (now : Nat) (sigR : Except JsErr String)
    (s : ManagerState) : MRes String :=
  match sigR with
  | .error e => (.error e, s, [.signCall])
  | .ok tok =>
      (.ok tok,
       { s with currentToken := some tok,
                tokenExpiryTime := some (now + 14 * 60 * 1000) },
       [.signCall])

/-- Embeds `isTokenExpired()`: true when `this.tokenExpiryTime` is
falsy (never set), else `Date.now() >= tokenExpiryTime - 60000`.
Natural-number truncated subtraction agrees with JavaScript number
arithmetic here for every `now ≥ 0`: when `t < 60000` both sides are
unconditionally true. -/
def isTokenExpired (now : Nat) (s : ManagerState) : Bool :=
  match s.tokenExpiryTime with
  | none => true
  | some t => now ≥ t - 60000

/-- Embeds `createPool(token = null)`: in token mode
(`USE_IAM_AUTH === 'true'`) a null token is first obtained via
`generateAuthToken()`, the token becomes the pool `password` and the
`mysql_clear_password` auth plugin is installed; otherwise
`password = process.env.DB_PWD`.  `mysql.createPool` (outcome
`createOk`) then builds the pool.  The method returns the pool and
does not assign `this.pool`. -/
def createPool (env : Env) (now : Nat) (sigR : Except JsErr String)
    (createOk : Bool) (token : Option String) (s : ManagerState) :
    MRes Pool :=
  if env.useIamAuth = "true" then
    match token with
    | none =>
        match generateAuthToken now sigR s with
        | (.error e, s1, tr1) => (.error e, s1, tr1)
        | (.ok tok, s1, tr1) =>
            if createOk then
              (.ok { id := s1.nextPoolId, password := some tok,
                     usedAuthPlugin := true, closed := false },
               { s1 with nextPoolId := s1.nextPoolId + 1 },
               tr1 ++ [.poolCreate s1.nextPoolId])
            else
              (.error (.poolCreateErr "createPool"), s1, tr1)
    | some tok =>
        if createOk then
          (.ok { id := s.nextPoolId, password := some tok,
                 usedAuthPlugin := true, closed := false },
           { s with nextPoolId := s.nextPoolId + 1 },
           [.poolCreate s.nextPoolId])
        else
          (.error (.poolCreateErr "createPool"), s, [])
  else
    if createOk then
      (.ok { id := s.nextPoolId, password := env.dbPwd,
             usedAuthPlugin := false, closed := false },
       { s with nextPoolId := s.nextPoolId + 1 },
       [.poolCreate s.nextPoolId])
    else
      (.error (.poolCreateErr "createPool"), s, [])

/-- Embeds `refreshPool()`.  Inside one `try` block: (1) generate a
new token; (2) if `this.pool` is non-null, `await this.pool.end()`
(outcome `endOk`); (3) `this.pool = await this.createPool(newToken)`.
The `catch` logs the error and rethrows it, so any failure — signer,
`pool.end`, or pool creation — is logged and then propagates to the
caller, with all mutations made before the failure kept. -/
def refreshPool (env : Env) (now : Nat) (sigR : Except JsErr String)
    (endOk : Bool) (createOk : Bool) (s : ManagerState) : MRes Unit :=
  match generateAuthToken now sigR s with
  | (.error e, s1, tr1) =>
      (.error e, s1, .refreshStart :: tr1 ++ [.logError])
  | (.ok tok, s1, tr1) =>
      match s1.pool with
      | some p =>
          if endOk then
            let s2 := { s1 with pool := some { p with closed := true } }
            match createPool env now sigR createOk (some tok) s2 with
            | (.error e, s3, tr3) =>
                (.error e,
                 s3,
                 .refreshStart :: tr1 ++ [.poolEnd p.id] ++ tr3 ++ [.logError])
            | (.ok newPool, s3, tr3) =>
                (.ok (),
                 { s3 with pool := some newPool },
                 .refreshStart :: tr1 ++ [.poolEnd p.id] ++ tr3)
          else
            (.error (.poolEndErr "end"),
             s1,
             .refreshStart :: tr1 ++ [.poolEnd p.id, .logError])
      | none =>
          match createPool env now sigR createOk (some tok) s1 with
          | (.error e, s3, tr3) =>
              (.error e, s3, .refreshStart :: tr1 ++ tr3 ++ [.logError])
          | (.ok newPool, s3, tr3) =>
              (.ok (),
               { s3 with pool := some newPool },
               .refreshStart :: tr1 ++ tr3)

/-- Embeds `initialize()` (named `initManager` because Lean reserves
the source name).  Inside one `try` block: `this.pool = await
this.createPool()`; a connectivity probe `this.pool.getConnection()`
(outcome `connOk`); then, only when `USE_IAM_AUTH === 'true'`, arm
`this.tokenRefreshInterval = setInterval(..., 13 * 60 * 1000)`.  The
`catch` logs and rethrows. -/
def initManager (env : Env) (now : Nat) (sigR : Except JsErr String)
    (createOk : Bool) (connOk : Bool) (s : ManagerState) : MRes Unit :=
  match createPool env now sigR createOk none s with
  | (.error e, s1, tr1) => (.error e, s1, tr1 ++ [.logError])
  | (.ok p, s1, tr1) =>
      let s2 := { s1 with pool := some p }
      if connOk then
        if env.useIamAuth = "true" then
          (.ok (),
           { s2 with tokenRefreshInterval := some (13 * 60 * 1000) },
           tr1 ++ [.poolGetConn p.id])
        else
          (.ok (), s2, tr1 ++ [.poolGetConn p.id])
      else
        (.error (.connErr "getConnection"), s2,
         tr1 ++ [.poolGetConn p.id, .logError])

/-- Embeds `getConnection()`: throws `notInitialized` when
`this.pool` is null; otherwise, when `USE_IAM_AUTH === 'true' &&
this.isTokenExpired()`, awaits `refreshPool()` (a failure
propagates); finally delegates to `this.pool.getConnection()` on the
pool handle current at that point. -/
def getConnection (env : Env) (now : Nat) (sigR : Except JsErr String)
    (endOk : Bool) (createOk : Bool) (s : ManagerState) : MRes Unit :=
  match s.pool with
  | none => (.error .notInitialized, s, [])
  | some _ =>
      if env.useIamAuth = "true" ∧ isTokenExpired now s then
        match refreshPool env now sigR endOk createOk s with
        | (.error e, s1, tr1) => (.error e, s1, tr1)
        | (.ok _, s1, tr1) =>
            match s1.pool with
            | some p1 => (.ok (), s1, tr1 ++ [.poolGetConn p1.id])
            | none => (.error .notInitialized, s1, tr1)
      else
        match s.pool with
        | some p => (.ok (), s, [.poolGetConn p.id])
        | none => (.error .notInitialized, s, [])

/-- Embeds `query(sql, params = [])`: the same guard structure as
`getConnection()`, delegating to `this.pool.query(sql, params)`. -/
def query (env : Env) (now : Nat) (sigR : Except JsErr String)
    (endOk : Bool) (createOk : Bool) (s : ManagerState) : MRes Unit :=
  match s.pool with
  | none => (.error .notInitialized, s, [])
  | some _ =>
      if env.useIamAuth = "true" ∧ isTokenExpired now s then
        match refreshPool env now sigR endOk createOk s with
        | (.error e, s1, tr1) => (.error e, s1, tr1)
        | (.ok _, s1, tr1) =>
            match s1.pool with
            | some p1 => (.ok (), s1, tr1 ++ [.poolQuery p1.id])
            | none => (.error .notInitialized, s1, tr1)
      else
        match s.pool with
        | some p => (.ok (), s, [.poolQuery p.id])
        | none => (.error .notInitialized, s, [])

/-- Embeds `shutdown()`: if `this.tokenRefreshInterval` is set,
`clearInterval` it and null the handle; then if `this.pool` is set,
`await this.pool.end()` (outcome `endOk`) and null the handle.  The
`pool.end()` call is not guarded by any `try`, so its rejection
propagates out of `shutdown()` and the line `this.pool = null` is
skipped. -/
def shutdown (endOk : Bool) (s : ManagerState) : MRes Unit :=
  let (s1, tr1) :=
    match s.tokenRefreshInterval with
    | some _ => ({ s with tokenRefreshInterval := none }, [Ev.timerCancel])
    | none => (s, [])
  match s1.pool with
  | some p =>
      if endOk then
        (.ok (), { s1 with pool := none }, tr1 ++ [.poolEnd p.id])
      else
        (.error (.poolEndErr "end"), s1, tr1 ++ [.poolEnd p.id])
  | none => (.ok (), s1, tr1)

/-- Embeds the body of the `setInterval` callback armed by
`initialize()`: `try { await this.refreshPool(); } catch (error)
{ console.error(...); }` — the failure of a scheduled tick is caught
and logged, never rethrown, so the callback itself cannot reject. -/
def scheduledTick (env : Env) (now : Nat) (sigR : Except JsErr String)
    (endOk : Bool) (createOk : Bool) (s : ManagerState) :
    ManagerState × List Ev :=
  match refreshPool env now sigR endOk createOk s with
  | (.error _, s1, tr1) => (s1, tr1 ++ [.logError])
  | (.ok _, s1, tr1) => (s1, tr1)

/-- One external call into the manager, carrying its time and the
outcomes of the external collaborators it may consult: `opInit` is
`initialize()`, `opRotate` is `refreshPool()` (the Refresh
Scheduler's tick body reaches it through `scheduledTick`), `opQuery`
/ `opGetConn` are the consumer entry points, `opShutdown` is
`shutdown()`.  `sigR` is the signer outcome, `endOk` / `createOk` /
`connOk` the pool-primitive outcomes. -/
inductive Op where
  | opInit (now : Nat) (sigR : Except JsErr String) (createOk : Bool)
      (connOk : Bool)
  | opRotate (now : Nat) (sigR : Except JsErr String) (endOk : Bool)
      (createOk : Bool)
  | opQuery (now : Nat) (sigR : Except JsErr String) (endOk : Bool)
      (createOk : Bool)
  | opGetConn (now : Nat) (sigR : Except JsErr String) (endOk : Bool)
      (createOk : Bool)
  | opShutdown (endOk : Bool)
deriving Repr

/-- Runs one call against the state, keeping the state the call
leaves behind whether it returned or threw (JavaScript mutations made
before a throw persist). -/
def stepState (env : Env) (s : ManagerState) : Op → ManagerState
  | .opInit now sigR createOk connOk =>
      (initManager env now sigR createOk connOk s).2.1
  | .opRotate now sigR endOk createOk =>
      (refreshPool env now sigR endOk createOk s).2.1
  | .opQuery now sigR endOk createOk =>
      (query env now sigR endOk createOk s).2.1
  | .opGetConn now sigR endOk createOk =>
      (getConnection env now sigR endOk createOk s).2.1
  | .opShutdown endOk => (shutdown endOk s).2.1

/-- Whether one call returns normally (no exception) from the state. -/
def stepOk (env : Env) (s : ManagerState) : Op → Bool
  | .opInit now sigR createOk connOk =>
      (initManager env now sigR createOk connOk s).1.isOk
  | .opRotate now sigR endOk createOk =>
      (refreshPool env now sigR endOk createOk s).1.isOk
  | .opQuery now sigR endOk createOk =>
      (query env now sigR endOk createOk s).1.isOk
  | .opGetConn now sigR endOk createOk =>
      (getConnection env now sigR endOk createOk s).1.isOk
  | .opShutdown endOk => (shutdown endOk s).1.isOk

/-- Runs a sequence of calls, keeping every post-state (failed calls
included). -/
def run (env : Env) (s : ManagerState) : List Op → ManagerState
  | [] => s
  | op :: ops => run env (stepState env s op) ops

/-- Runs a sequence of calls, returning `none` as soon as one throws. -/
def runOk (env : Env) (s : ManagerState) : List Op → Option ManagerState
  | [] => some s
  | op :: ops =>
      if stepOk env s op then runOk env (stepState env s op) ops else none

/-- The ManagerState invariant claimed by the spec for token mode: a
non-null active pool implies a non-null stored credential that was
the one used as the pool's password. -/
def credentialMatchesPool (s : ManagerState) : Bool :=
  match s.pool with
  | none => true
  | some p =>
      match s.currentToken with
      | none => false
      | some t => p.password == some t

/-- A token-mode environment (`USE_IAM_AUTH=true`). -/
def envTok : Env := { useIamAuth := "true", dbPwd := none }

/-- A password-mode environment (`USE_IAM_AUTH=false`, `DB_PWD=secret`). -/
def envPwd : Env := { useIamAuth := "false", dbPwd := some "secret" }

/-- A reachable post-`initialize()` state in token mode: signer issued
token `"A"` at time 0, pool creation and the connectivity probe
succeeded. -/
def s0 : ManagerState :=
  stepState envTok initState (.opInit 0 (.ok "A") true true)

end RdsIamAuth

namespace RdsIamAuth

/-- C3: when the signer call fails during `refreshPool()`, the method
rethrows exactly that error, the whole state is unchanged (pool not
closed, not replaced; `currentToken` and `tokenExpiryTime` untouched),
and the only events are the failed signer call and the `catch` log —
no pool was closed or created. -/
theorem C3_rotation_abort_on_signer_failure (env : Env) (now : Nat)
    (e : JsErr) (endOk createOk : Bool) (s : ManagerState) :
    refreshPool env now (.error e) endOk createOk s =
      (.error e, s, [.refreshStart, .signCall, .logError]) := rfl

/-- C6: `isTokenExpired` is true in the initial state (no credential
ever generated); a successful `generateAuthToken` at time `now` sets
`tokenExpiryTime = now + (15 min − 1 min safety margin)`, after which
`isTokenExpired` is false at `now` and is true at a time `now'`
exactly when `now' ≥ tokenExpiryTime − 1 min` lookahead margin. -/
theorem C6_isTokenExpired_semantics (now now' : Nat) (tok : String)
    (s : ManagerState) :
    isTokenExpired now initState = true
    ∧ (generateAuthToken now (.ok tok) s).2.1.tokenExpiryTime =
        some (now + (15 * 60 * 1000 - 60 * 1000))
    ∧ isTokenExpired now (generateAuthToken now (.ok tok) s).2.1 = false
    ∧ (isTokenExpired now' (generateAuthToken now (.ok tok) s).2.1 = true
        ↔ now' ≥ (now + 14 * 60 * 1000) - 60 * 1000) := by
  refine ⟨rfl, rfl, ?_, ?_⟩
  · simp [isTokenExpired, generateAuthToken]
  · simp [isTokenExpired, generateAuthToken]

/-- C7: `query()` and `getConnection()` on a manager whose pool is
null throw `notInitialized`, leave the state unchanged, and emit no
event at all — in particular no signer call, no rotation and no pool
operation. -/
theorem C7_not_initialized (env : Env) (now : Nat)
    (sigR : Except JsErr String) (endOk createOk : Bool)
    (s : ManagerState) (h : s.pool = none) :
    query env now sigR endOk createOk s = (.error .notInitialized, s, [])
    ∧ getConnection env now sigR endOk createOk s =
        (.error .notInitialized, s, []) := by
  constructor
  · unfold query
    rw [h]
  · unfold getConnection
    rw [h]

/-- Witness for C7 at the never-initialized state. -/
theorem C7_not_initialized_witness :
    query envTok 0 (.ok "A") true true initState =
      (.error .notInitialized, initState, [])
    ∧ getConnection envTok 0 (.ok "A") true true initState =
        (.error .notInitialized, initState, []) :=
  C7_not_initialized envTok 0 (.ok "A") true true initState rfl

/-- C10: in password mode (`USE_IAM_AUTH` not equal to `"true"`),
`query()` and `getConnection()` with an installed pool never rotate
and never call the signing service, whatever the stored expiry state:
they return immediately after delegating to the pool, with the state
— in particular `currentToken` and `tokenExpiryTime` — unchanged and
with the pool delegation as the only event (no `signCall`, no
`refreshStart`): the auth-mode test short-circuits the expiry check. -/
theorem C10_password_mode_no_rotation (env : Env) (now : Nat)
    (sigR : Except JsErr String) (endOk createOk : Bool)
    (s : ManagerState) (p : Pool) (henv : env.useIamAuth ≠ "true")
    (hp : s.pool = some p) :
    query env now sigR endOk createOk s = (.ok (), s, [.poolQuery p.id])
    ∧ getConnection env now sigR endOk createOk s =
        (.ok (), s, [.poolGetConn p.id]) := by
  constructor
  · unfold query
    rw [hp]
    simp [henv]
  · unfold getConnection
    rw [hp]
    simp [henv]

/-- Witness for C10: password mode, pool installed, expiry never set
(so `isTokenExpired` would be true were it consulted). -/
theorem C10_password_mode_no_rotation_witness :
    query envPwd 0 (.error (.signerErr "net")) true true
        (stepState envPwd initState (.opInit 0 (.ok "A") true true)) =
      (.ok (), stepState envPwd initState (.opInit 0 (.ok "A") true true),
       [.poolQuery 0])
    ∧ getConnection envPwd 0 (.error (.signerErr "net")) true true
        (stepState envPwd initState (.opInit 0 (.ok "A") true true)) =
      (.ok (), stepState envPwd initState (.opInit 0 (.ok "A") true true),
       [.poolGetConn 0]) :=
  C10_password_mode_no_rotation envPwd 0 (.error (.signerErr "net")) true true
    (stepState envPwd initState (.opInit 0 (.ok "A") true true))
    { id := 0, password := some "secret", usedAuthPlugin := false,
      closed := false }
    (by decide) rfl

/-- C9: `initialize()` arms the refresh scheduler only in token mode,
with interval `13 * 60 * 1000` ms (the 15-minute validity window
minus twice the 1-minute safety margin); in password mode the timer
field is never touched by `initialize()`; and a failure inside a
scheduled tick is caught and logged — the tick returns normally with
the timer still armed exactly as before, so neither future ticks nor
the process are cancelled. -/
theorem C9_scheduler (env : Env) (now : Nat)
    (sigR : Except JsErr String) (tok : String) (e : JsErr)
    (endOk createOk connOk : Bool) (s : ManagerState)
    (henv : env.useIamAuth = "true") :
    (initManager env now (.ok tok) true true s).2.1.tokenRefreshInterval =
      some (13 * 60 * 1000)
    ∧ (initManager envPwd now sigR createOk connOk s).2.1.tokenRefreshInterval =
        s.tokenRefreshInterval
    ∧ (scheduledTick env now sigR endOk createOk s).1.tokenRefreshInterval =
        s.tokenRefreshInterval
    ∧ scheduledTick env now (.error e) endOk createOk s =
        (s, [.refreshStart, .signCall, .logError, .logError]) := by
  refine ⟨?_, ?_, ?_, ?_⟩
  · simp [initManager, createPool, generateAuthToken, henv]
  · rcases createOk with _ | _ <;> rcases connOk with _ | _ <;>
      simp [initManager, createPool, envPwd]
  · rcases sigR with e' | tok'
    · simp [scheduledTick, refreshPool, generateAuthToken]
    · rcases hsp : s.pool with _ | p <;>
        rcases endOk with _ | _ <;> rcases createOk with _ | _ <;>
        simp [scheduledTick, refreshPool, generateAuthToken, createPool,
          hsp, henv]
  · rfl

/-- Witness for C9 at concrete inputs: token-mode environment,
initial state, a failing signer for the tick. -/
theorem C9_scheduler_witness :
    (initManager envTok 0 (.ok "A") true true initState).2.1.tokenRefreshInterval =
      some (13 * 60 * 1000)
    ∧ (initManager envPwd 0 (.ok "A") true true initState).2.1.tokenRefreshInterval =
        initState.tokenRefreshInterval
    ∧ (scheduledTick envTok 0 (.ok "A") true true initState).1.tokenRefreshInterval =
        initState.tokenRefreshInterval
    ∧ scheduledTick envTok 0 (.error (.signerErr "net")) true true initState =
        (initState, [.refreshStart, .signCall, .logError, .logError]) :=
  C9_scheduler envTok 0 (.ok "A") "A" (.signerErr "net") true true true
    initState rfl

/-- C1 counterexample: from the reachable token-mode state `s0`
(active pool id 0), a fully successful rotation emits `poolEnd 0`
strictly before `poolCreate 1` — the old pool is closed before the
new pool is constructed, not after — and when closing the old pool
fails the rotation returns an error, i.e. the close failure is fatal
rather than best-effort. -/
theorem C1_counterexample :
    (refreshPool envTok 5 (.ok "B") true true s0).2.2 =
      [.refreshStart, .signCall, .poolEnd 0, .poolCreate 1]
    ∧ (refreshPool envTok 5 (.ok "B") false true s0).1 =
        .error (.poolEndErr "end") :=
  ⟨rfl, rfl⟩

/-- C1 amended: in the rotation algorithm the previously Active pool
is closed BEFORE the new pool is constructed (on the fully successful
path the events are exactly sign, close old, create new, in that
order), and a failure while closing the old pool is logged and then
RETHROWN — it aborts the rotation before any new pool is created,
leaving the old pool installed and only the credential fields already
overwritten. -/
theorem C1_amended (env : Env) (now : Nat) (tok : String)
    (createOk : Bool) (s : ManagerState) (p : Pool)
    (hp : s.pool = some p) :
    (refreshPool env now (.ok tok) true true s).2.2 =
      [.refreshStart, .signCall, .poolEnd p.id, .poolCreate s.nextPoolId]
    ∧ refreshPool env now (.ok tok) false createOk s =
        (.error (.poolEndErr "end"),
         { s with currentToken := some tok,
                  tokenExpiryTime := some (now + 14 * 60 * 1000) },
         [.refreshStart, .signCall, .poolEnd p.id, .logError]) := by
  constructor
  · by_cases henv : env.useIamAuth = "true" <;>
      simp [refreshPool, generateAuthToken, createPool, hp, henv]
  · simp [refreshPool, generateAuthToken, hp]

/-- Witness for C1 amended at the reachable state `s0`. -/
theorem C1_amended_witness :
    (refreshPool envTok 5 (.ok "B") true true s0).2.2 =
      [.refreshStart, .signCall, .poolEnd 0, .poolCreate s0.nextPoolId]
    ∧ refreshPool envTok 5 (.ok "B") false true s0 =
        (.error (.poolEndErr "end"),
         { s0 with currentToken := some "B",
                   tokenExpiryTime := some (5 + 14 * 60 * 1000) },
         [.refreshStart, .signCall, .poolEnd 0, .logError]) :=
  C1_amended envTok 5 "B" true s0
    { id := 0, password := some "A", usedAuthPlugin := true, closed := false }
    rfl

/-- C4 counterexample: from the reachable token-mode state `s0`, a
rotation whose pool creation fails does propagate the error, but the
Pool Manager's prior state is NOT left intact: the installed pool is
the old one already closed by step 2 (so not usable), and the stored
credential has already been overwritten with the new token
(`currentToken` changed from "A" to "B"). -/
theorem C4_counterexample :
    (refreshPool envTok 5 (.ok "B") true false s0).1 =
      .error (.poolCreateErr "createPool")
    ∧ (refreshPool envTok 5 (.ok "B") true false s0).2.1.pool =
        some { id := 0, password := some "A", usedAuthPlugin := true,
               closed := true }
    ∧ (refreshPool envTok 5 (.ok "B") true false s0).2.1.currentToken =
        some "B"
    ∧ s0.currentToken = some "A" :=
  ⟨rfl, rfl, rfl, rfl⟩

/-- C4 amended: a pool-creation failure during rotation propagates
the driver's creation error to the rotation caller (no dedicated
wrapper type exists), and the previously Active pool remains the
installed pool handle — but it has already been closed by the
preceding step, so it is not usable, and the stored credential and
expiry have already been overwritten with the newly generated token. -/
theorem C4_amended (env : Env) (now : Nat) (tok : String)
    (s : ManagerState) (p : Pool) (hp : s.pool = some p) :
    refreshPool env now (.ok tok) true false s =
      (.error (.poolCreateErr "createPool"),
       { s with pool := some { p with closed := true },
                currentToken := some tok,
                tokenExpiryTime := some (now + 14 * 60 * 1000) },
       [.refreshStart, .signCall, .poolEnd p.id, .logError]) := by
  by_cases henv : env.useIamAuth = "true" <;>
    simp [refreshPool, generateAuthToken, createPool, hp, henv]

/-- Witness for C4 amended at the reachable state `s0`. -/
theorem C4_amended_witness :
    refreshPool envTok 5 (.ok "B") true false s0 =
      (.error (.poolCreateErr "createPool"),
       { s0 with
           pool := some { id := 0, password := some "A",
                          usedAuthPlugin := true, closed := true },
           currentToken := some "B",
           tokenExpiryTime := some (5 + 14 * 60 * 1000) },
       [.refreshStart, .signCall, .poolEnd 0, .logError]) :=
  C4_amended envTok 5 "B" s0
    { id := 0, password := some "A", usedAuthPlugin := true, closed := false }
    rfl

/-- C5: in token mode, one `query()` call on a state whose credential
is expired runs exactly one rotation — the event trace contains the
single rotation entry `refreshStart`, once, before the delegation —
and then delegates to the pool the rotation just installed (the
`poolQuery` event carries the new pool's id, which is the id of the
pool installed in the post-state). -/
theorem C5_query_exactly_one_rotation (env : Env) (now : Nat)
    (tok : String) (s : ManagerState) (p : Pool)
    (henv : env.useIamAuth = "true") (hp : s.pool = some p)
    (hexp : isTokenExpired now s = true) :
    query env now (.ok tok) true true s =
      (.ok (),
       { s with
           pool := some { id := s.nextPoolId, password := some tok,
                          usedAuthPlugin := true, closed := false },
           currentToken := some tok,
           tokenExpiryTime := some (now + 14 * 60 * 1000),
           nextPoolId := s.nextPoolId + 1 },
       [.refreshStart, .signCall, .poolEnd p.id, .poolCreate s.nextPoolId,
        .poolQuery s.nextPoolId])
    ∧ [Ev.refreshStart, .signCall, .poolEnd p.id, .poolCreate s.nextPoolId,
        .poolQuery s.nextPoolId].count .refreshStart = 1 := by
  constructor
  · simp [query, refreshPool, generateAuthToken, createPool, hp, henv, hexp]
  · simp [List.count_cons]

/-- Witness for C5: token mode, state `s0` (expiry 840000 ms), query
at time 900000 ms, past the lookahead margin. -/
theorem C5_query_exactly_one_rotation_witness :
    query envTok 900000 (.ok "B") true true s0 =
      (.ok (),
       { s0 with
           pool := some { id := s0.nextPoolId, password := some "B",
                          usedAuthPlugin := true, closed := false },
           currentToken := some "B",
           tokenExpiryTime := some (900000 + 14 * 60 * 1000),
           nextPoolId := s0.nextPoolId + 1 },
       [.refreshStart, .signCall, .poolEnd 0, .poolCreate s0.nextPoolId,
        .poolQuery s0.nextPoolId])
    ∧ [Ev.refreshStart, .signCall, .poolEnd 0, .poolCreate s0.nextPoolId,
        .poolQuery s0.nextPoolId].count .refreshStart = 1 :=
  C5_query_exactly_one_rotation envTok 900000 "B" s0
    { id := 0, password := some "A", usedAuthPlugin := true, closed := false }
    rfl rfl (by decide)

/-- C8 counterexample: from the reachable state `s0`, `shutdown()`
with a failing `pool.end()` throws (the rejection is not swallowed)
and leaves the pool still installed, so the state is not cleared. -/
theorem C8_counterexample :
    (shutdown false s0).1 = .error (.poolEndErr "end")
    ∧ (shutdown false s0).2.1.pool ≠ none :=
  ⟨rfl, by decide⟩

/-- C8 amended: `shutdown()` returns normally when no pool is
installed (never initialized, or already shut down — in particular a
second `shutdown()` after a successful one succeeds), cancels the
refresh timer before closing the Active pool, and a successful close
fully clears the state (`pool = none`, timer handle `none`); but a
pool-close failure is NOT swallowed: the rejection propagates out of
`shutdown()`, leaving the pool still installed with only the timer
cleared. -/
theorem C8_amended (s t u : ManagerState) (endOk : Bool) (i : Nat)
    (p : Pool) (hnone : t.pool = none) (hp : s.pool = some p)
    (hi : s.tokenRefreshInterval = some i) :
    (shutdown endOk t).1 = .ok ()
    ∧ (shutdown endOk t).2.1.pool = none
    ∧ (shutdown endOk t).2.1.tokenRefreshInterval = none
    ∧ (shutdown true u).1 = .ok ()
    ∧ (shutdown true u).2.1.pool = none
    ∧ (shutdown true u).2.1.tokenRefreshInterval = none
    ∧ (shutdown endOk (shutdown true u).2.1).1 = .ok ()
    ∧ (shutdown endOk s).2.2 = [.timerCancel, .poolEnd p.id]
    ∧ (shutdown false s).1 = .error (.poolEndErr "end")
    ∧ (shutdown false s).2.1 = { s with tokenRefreshInterval := none } := by
  obtain ⟨tpool, ttimer, tc, te, tn⟩ := t
  obtain ⟨spool, stimer, sc, se, sn⟩ := s
  obtain ⟨upool, utimer, uc, ue, un⟩ := u
  simp only at hnone hp hi
  subst hnone; subst hp; subst hi
  rcases ttimer with _ | ti <;> rcases utimer with _ | ui <;>
    rcases upool with _ | up <;> rcases endOk with _ | _ <;>
    simp [shutdown]

/-- Witness for C8 amended: `t` the fresh state, `u` and `s` the
initialized state `s0`. -/
theorem C8_amended_witness :
    (shutdown true initState).1 = .ok ()
    ∧ (shutdown true initState).2.1.pool = none
    ∧ (shutdown true initState).2.1.tokenRefreshInterval = none
    ∧ (shutdown true s0).1 = .ok ()
    ∧ (shutdown true s0).2.1.pool = none
    ∧ (shutdown true s0).2.1.tokenRefreshInterval = none
    ∧ (shutdown true (shutdown true s0).2.1).1 = .ok ()
    ∧ (shutdown true s0).2.2 = [.timerCancel, .poolEnd 0]
    ∧ (shutdown false s0).1 = .error (.poolEndErr "end")
    ∧ (shutdown false s0).2.1 = { s0 with tokenRefreshInterval := none } :=
  C8_amended s0 initState s0 true 780000
    { id := 0, password := some "A", usedAuthPlugin := true, closed := false }
    rfl rfl rfl

/-- Preservation lemma for the C2 invariant: in token mode, a call
that returns normally preserves `credentialMatchesPool`. -/
lemma credentialMatchesPool_step (env : Env) (henv : env.useIamAuth = "true")
    (s : ManagerState) (op : Op)
    (hInv : credentialMatchesPool s = true)
    (hOk : stepOk env s op = true) :
    credentialMatchesPool (stepState env s op) = true := by
  cases op with
  | opInit now sigR createOk connOk =>
      rcases sigR with e | tok
      · simp [stepOk, Except.isOk, Except.toBool, initManager, createPool, generateAuthToken, henv] at hOk
      · rcases createOk with _ | _
        · simp [stepOk, Except.isOk, Except.toBool, initManager, createPool, generateAuthToken, henv]
            at hOk
        · rcases connOk with _ | _
          · simp [stepOk, Except.isOk, Except.toBool, initManager, createPool, generateAuthToken, henv]
              at hOk
          · simp [stepState, initManager, createPool, generateAuthToken,
              henv, credentialMatchesPool]
  | opRotate now sigR endOk createOk =>
      rcases sigR with e | tok
      · simp [stepOk, Except.isOk, Except.toBool, refreshPool, generateAuthToken] at hOk
      · rcases hsp : s.pool with _ | p
        · rcases createOk with _ | _
          · simp [stepOk, Except.isOk, Except.toBool, refreshPool, generateAuthToken, createPool, hsp,
              henv] at hOk
          · simp [stepState, refreshPool, generateAuthToken, createPool,
              hsp, henv, credentialMatchesPool]
        · rcases endOk with _ | _
          · simp [stepOk, Except.isOk, Except.toBool, refreshPool, generateAuthToken, hsp] at hOk
          · rcases createOk with _ | _
            · simp [stepOk, Except.isOk, Except.toBool, refreshPool, generateAuthToken, createPool,
                hsp, henv] at hOk
            · simp [stepState, refreshPool, generateAuthToken, createPool,
                hsp, henv, credentialMatchesPool]
  | opQuery now sigR endOk createOk =>
      rcases hsp : s.pool with _ | p
      · simp [stepOk, Except.isOk, Except.toBool, query, hsp] at hOk
      · rcases hexp : isTokenExpired now s with _ | _
        · simpa [stepState, query, hsp, hexp] using hInv
        · rcases sigR with e | tok
          · simp [stepOk, Except.isOk, Except.toBool, query, hsp, hexp, henv, refreshPool,
              generateAuthToken] at hOk
          · rcases endOk with _ | _
            · simp [stepOk, Except.isOk, Except.toBool, query, hsp, hexp, henv, refreshPool,
                generateAuthToken] at hOk
            · rcases createOk with _ | _
              · simp [stepOk, Except.isOk, Except.toBool, query, hsp, hexp, henv, refreshPool,
                  generateAuthToken, createPool] at hOk
              · simp [stepState, query, hsp, hexp, henv, refreshPool,
                  generateAuthToken, createPool, credentialMatchesPool]
  | opGetConn now sigR endOk createOk =>
      rcases hsp : s.pool with _ | p
      · simp [stepOk, Except.isOk, Except.toBool, getConnection, hsp] at hOk
      · rcases hexp : isTokenExpired now s with _ | _
        · simpa [stepState, getConnection, hsp, hexp] using hInv
        · rcases sigR with e | tok
          · simp [stepOk, Except.isOk, Except.toBool, getConnection, hsp, hexp, henv, refreshPool,
              generateAuthToken] at hOk
          · rcases endOk with _ | _
            · simp [stepOk, Except.isOk, Except.toBool, getConnection, hsp, hexp, henv, refreshPool,
                generateAuthToken] at hOk
            · rcases createOk with _ | _
              · simp [stepOk, Except.isOk, Except.toBool, getConnection, hsp, hexp, henv, refreshPool,
                  generateAuthToken, createPool] at hOk
              · simp [stepState, getConnection, hsp, hexp, henv,
                  refreshPool, generateAuthToken, createPool,
                  credentialMatchesPool]
  | opShutdown endOk =>
      rcases htimer : s.tokenRefreshInterval with _ | ti <;>
        rcases hsp : s.pool with _ | p <;>
        rcases endOk with _ | _ <;>
        (simp only [stepState, shutdown, htimer, hsp]
         simp only [credentialMatchesPool, hsp]
         all_goals
           first
           | rfl
           | simpa [credentialMatchesPool, hsp] using hInv)

/-- C2 counterexample: the invariant fails on a reachable state.  The
trace initializes in token mode (signer issues "A") and then runs one
rotation in which the signer issues "B" but closing the old pool
fails: the rotation aborts AFTER `currentToken` was overwritten with
"B", while the installed pool is still the one constructed with "A". -/
theorem C2_counterexample :
    ¬ ∀ ops : List Op,
        credentialMatchesPool (run envTok initState ops) = true := by
  intro h
  exact absurd
    (h [.opInit 0 (.ok "A") true true, .opRotate 1000 (.ok "B") false true])
    (by decide)

/-- C2 amended: the invariant holds for every state reachable by a
sequence of calls that all return normally — in token mode, whenever
the active pool is non-null, the active credential is non-null and is
the token used as the pool's password.  (A call that throws after the
signer succeeded — a failed pool close or pool creation during
rotation — can leave the stored credential ahead of the installed
pool, as the counterexample shows.) -/
theorem C2_amended (env : Env) (ops : List Op) (s' : ManagerState)
    (henv : env.useIamAuth = "true")
    (h : runOk env initState ops = some s') :
    credentialMatchesPool s' = true := by
  suffices H : ∀ (l : List Op) (s : ManagerState),
      credentialMatchesPool s = true → runOk env s l = some s' →
      credentialMatchesPool s' = true from H ops initState rfl h
  intro l
  induction l with
  | nil =>
      intro s hs hrun
      simp only [runOk, Option.some.injEq] at hrun
      subst hrun
      exact hs
  | cons op l ih =>
      intro s hs hrun
      simp only [runOk] at hrun
      by_cases hok : stepOk env s op = true
      · rw [if_pos hok] at hrun
        exact ih _ (credentialMatchesPool_step env henv s op hs hok) hrun
      · rw [if_neg hok] at hrun
        exact Option.noConfusion hrun

/-- Witness for C2 amended: initialize with token "A", then one fully
successful rotation to token "B". -/
theorem C2_amended_witness :
    credentialMatchesPool
      { pool := some { id := 1, password := some "B",
                       usedAuthPlugin := true, closed := false },
        tokenRefreshInterval := some 780000,
        currentToken := some "B",
        tokenExpiryTime := some 840005,
        nextPoolId := 2 } = true :=
  C2_amended envTok
    [.opInit 0 (.ok "A") true true, .opRotate 5 (.ok "B") true true]
    _ rfl (by decide)

end RdsIamAuth
